import Mathlib

/-!
Shallow embedding of `src/app.py` (rprebot/search_motivations), a semantic
retrieval pipeline over a Qdrant vector index: query text is embedded, the
nearest stored records are fetched, and their metadata payloads are normalized
into fixed-shape result records for a display layer.

Python values appearing in metadata payloads are modelled by `PyVal`
(`None`, strings, integers, lists); payload dictionaries by association lists
`List (String × PyVal)` with Python `dict.get` semantics.  Remote boundaries
(OpenAI embeddings, Qdrant search) are modelled as oracle functions returning
`Except`; instrumented variants count boundary invocations.
-/

set_option autoImplicit false

namespace SearchMotivations

/-- Model of the Python values that occur in metadata payloads of this app:
`None`, `str`, `int`, and (possibly nested) `list`. -/
inductive PyVal where
  | none
  | str (s : String)
  | int (n : Int)
  | list (xs : List PyVal)

/-- Python truthiness (`bool(v)`) for the modelled values: `None`, `""`, `0`
and `[]` are falsy, everything else truthy. -/
def pyTruthy : PyVal → Bool
  | PyVal.none => false
  | PyVal.str s => s != ""
  | PyVal.int n => n != 0
  | PyVal.list xs => !xs.isEmpty

mutual

/-- Python `repr` for the modelled values (string quoting approximated with
single quotes, as CPython does for strings without special characters). -/
def pyRepr : PyVal → String
  | PyVal.none => "None"
  | PyVal.str s => "'" ++ s ++ "'"
  | PyVal.int n => toString n
  | PyVal.list xs => "[" ++ pyReprList xs ++ "]"

/-- Comma-separated `repr`s of the elements of a Python list. -/
def pyReprList : List PyVal → String
  | [] => ""
  | [x] => pyRepr x
  | x :: y :: xs => pyRepr x ++ ", " ++ pyReprList (y :: xs)

end

/-- Python `str(v)`: identity on strings, `repr` otherwise (for the modelled
value shapes `str` and `repr` agree on `None`, ints and lists). -/
def pyStr : PyVal → String
  | PyVal.str s => s
  | v => pyRepr v

/-- Python `v == s` where `s` is a string constant: true exactly when `v` is
that string (no custom `__eq__` is involved for the payload values). -/
def pyEqStr : PyVal → String → Bool
  | PyVal.str t, s => t == s
  | _, _ => false

/-- Lookup in a Python dict modelled as an association list: the value stored
at key `k`, if any. -/
def pyDictFind (d : List (String × PyVal)) (k : String) : Option PyVal :=
  (d.find? (fun kv => kv.1 == k)).map (fun kv => kv.2)

/-- Python `d.get(k)`: the stored value, or `None` when the key is absent. -/
def pyDictGet (d : List (String × PyVal)) (k : String) : PyVal :=
  (pyDictFind d k).getD PyVal.none

/-- Python `d.get(k, default)`: the stored value, or `default` when the key is
absent. -/
def pyDictGetD (d : List (String × PyVal)) (k : String) (dflt : PyVal) : PyVal :=
  (pyDictFind d k).getD dflt

/-- Errors raised by the modelled pure Python helpers. -/
inductive PyError where
  | typeError
deriving DecidableEq

/-- Python `sep.join(xs)`: concatenates the elements of `xs` separated by
`sep`, raising `TypeError` when an element is not a string. -/
def pyJoin (sep : String) : List PyVal → Except PyError String
  | [] => Except.ok ""
  | [PyVal.str s] => Except.ok s
  | PyVal.str s :: x :: xs =>
    match pyJoin sep (x :: xs) with
    | Except.ok r => Except.ok (s ++ sep ++ r)
    | Except.error e => Except.error e
  | _ => Except.error PyError.typeError

/-- Embedding of `format_themes_inline` (app.py:92-100): sentinel for falsy
input, comma-and-space join for a non-empty list, `str` otherwise. -/
def format_themes_inline (themes : PyVal) : Except PyError String :=
  if !pyTruthy themes then Except.ok "Non renseigné"
  else
    match themes with
    | PyVal.list xs =>
      if xs.length = 0 then Except.ok "Non renseigné" else pyJoin ", " xs
    | v => Except.ok (pyStr v)

/-- Embedding of `create_decision_url` (app.py:103-107): a URL for a truthy
identifier different from the sentinel, `None` (modelled `Option.none`)
otherwise. -/
def create_decision_url (decision_id : PyVal) : Option String :=
  if pyTruthy decision_id && !pyEqStr decision_id "Non renseigné" then
    some ("https://www.courdecassation.fr/decision/" ++ pyStr decision_id)
  else
    Option.none

/-- Membership in Python's `\s` class, restricted to the whitespace characters
relevant here (ASCII whitespace). -/
def isPySpace (c : Char) : Bool :=
  c == ' ' || c == '\t' || c == '\n' || c == '\r' || c == '\x0b' || c == '\x0c'

/-- Match exactly `n` digits (`\d{n}`) at the head of the input, returning the
digits and the rest. -/
def takeDigits : Nat → List Char → Option (List Char × List Char)
  | 0, cs => some ([], cs)
  | _ + 1, [] => Option.none
  | n + 1, c :: cs =>
    if c.isDigit then (takeDigits n cs).map (fun p => (c :: p.1, p.2))
    else Option.none

/-- Match the case-number shape `\d{2}-\d{2}\.\d{3}` at the head of the input,
returning the matched characters (the capture group) and the rest. -/
def matchCaseNumAt (cs : List Char) : Option (List Char × List Char) :=
  match takeDigits 2 cs with
  | some (d1, '-' :: cs1) =>
    match takeDigits 2 cs1 with
    | some (d2, '.' :: cs2) =>
      match takeDigits 3 cs2 with
      | some (d3, rest) => some (d1 ++ '-' :: (d2 ++ '.' :: d3), rest)
      | _ => Option.none
    | _ => Option.none
  | _ => Option.none

/-- Case-insensitive literal match (`re.IGNORECASE`) at the head of the input,
returning the rest on success. -/
def matchLitCI : List Char → List Char → Option (List Char)
  | [], cs => some cs
  | _ :: _, [] => Option.none
  | l :: ls, c :: cs => if l.toLower == c.toLower then matchLitCI ls cs else Option.none

/-- Greedy `\s*`: drop leading whitespace (safe here because what follows in
every pattern is a digit, never a whitespace character). -/
def skipSpaces : List Char → List Char
  | [] => []
  | c :: cs => if isPySpace c then skipSpaces cs else c :: cs

/-- Matcher for pattern (a) `pourvoi n°\s*(\d{2}-\d{2}\.\d{3})` anchored at the
current position; yields the capture group. -/
def matchPourvoiAt (cs : List Char) : Option (List Char) :=
  match matchLitCI "pourvoi n°".data cs with
  | some rest => (matchCaseNumAt (skipSpaces rest)).map (fun p => p.1)
  | Option.none => Option.none

/-- Matcher for pattern (b) `n°\s*(\d{2}-\d{2}\.\d{3})` anchored at the current
position; yields the capture group. -/
def matchNumAt (cs : List Char) : Option (List Char) :=
  match matchLitCI "n°".data cs with
  | some rest => (matchCaseNumAt (skipSpaces rest)).map (fun p => p.1)
  | Option.none => Option.none

/-- Matcher for pattern (c) `(\d{2}-\d{2}\.\d{3})` anchored at the current
position. -/
def matchBareAt (cs : List Char) : Option (List Char) :=
  (matchCaseNumAt cs).map (fun p => p.1)

/-- `re.search`: try the anchored matcher at each position, leftmost first. -/
def searchPat (m : List Char → Option (List Char)) : List Char → Option (List Char)
  | [] => m []
  | c :: cs =>
    match m (c :: cs) with
    | some r => some r
    | Option.none => searchPat m cs

/-- The `for pattern in patterns` loop of `extract_decision_id_from_title`:
return the first pattern's search result that succeeds. -/
def firstMatch : List (List Char → Option (List Char)) → List Char → Option (List Char)
  | [], _ => Option.none
  | p :: ps, cs =>
    match searchPat p cs with
    | some r => some r
    | Option.none => firstMatch ps cs

/-- The three prioritized patterns of app.py:112-116, most specific first. -/
def titlePatterns : List (List Char → Option (List Char)) :=
  [matchPourvoiAt, matchNumAt, matchBareAt]

/-- Embedding of `extract_decision_id_from_title` (app.py:110-121): search the
title with each pattern in priority order, returning the first capture group,
or `None` when no pattern matches. -/
def extract_decision_id_from_title (title : String) : Option String :=
  (firstMatch titlePatterns title.data).map String.mk

/-- Configuration constant `COLLECTION_NAME` (app.py:17). -/
def COLLECTION_NAME : String := "blocs_motivation"

/-- Configuration constant `VECTOR_SIZE` (app.py:18). -/
def VECTOR_SIZE : Nat := 256

/-- Configuration constant `DEFAULT_LIMIT` (app.py:19). -/
def DEFAULT_LIMIT : Nat := 10

/-- Errors crossing the remote boundaries or raised at construction. -/
inductive AppError where
  | embeddingError (msg : String)
  | indexUnavailable (msg : String)
  | collectionNotFound (msg : String)
deriving DecidableEq

/-- A Qdrant search hit: a similarity score paired with the stored record's
metadata payload (`with_payload=True`). -/
structure Hit where
  score : PyVal
  payload : List (String × PyVal)

/-- A normalized result record, a Python dict from field name to value. -/
def ResultRecord := List (String × PyVal)

/-- The fixed (result key, payload key) pairs of the normalizer's dict literal
(app.py:68-85), in source order, excluding the `score` entry which comes from
the hit itself. -/
def fixedFields : List (String × String) :=
  [("decision_id", "unique_ID"), ("number", "number"), ("ecli", "ecli"),
   ("jurisdiction", "jurisdiction"), ("chamber", "chamber"),
   ("formation", "formation"), ("type", "type"),
   ("decision_date", "decision_date"), ("localisation", "localisation"),
   ("solution", "solution"), ("theme", "theme"), ("themes", "themes"),
   ("publication", "publication"), ("summary", "summary"), ("zones", "zones"),
   ("visa", "visa"), ("rapprochements", "rapprochements"), ("files", "files")]

/-- All keys of a normalized result record, `score` included. -/
def resultRecordKeys : List String := "score" :: fixedFields.map (fun kv => kv.1)

/-- The per-hit dict literal of `search_similar_decisions` (app.py:66-86):
`score` from the hit, every other field via `hit.payload.get(key)`. -/
def normalize_hit (hit : Hit) : ResultRecord :=
  [("score", hit.score),
   ("decision_id", pyDictGet hit.payload "unique_ID"),
   ("number", pyDictGet hit.payload "number"),
   ("ecli", pyDictGet hit.payload "ecli"),
   ("jurisdiction", pyDictGet hit.payload "jurisdiction"),
   ("chamber", pyDictGet hit.payload "chamber"),
   ("formation", pyDictGet hit.payload "formation"),
   ("type", pyDictGet hit.payload "type"),
   ("decision_date", pyDictGet hit.payload "decision_date"),
   ("localisation", pyDictGet hit.payload "localisation"),
   ("solution", pyDictGet hit.payload "solution"),
   ("theme", pyDictGet hit.payload "theme"),
   ("themes", pyDictGet hit.payload "themes"),
   ("publication", pyDictGet hit.payload "publication"),
   ("summary", pyDictGet hit.payload "summary"),
   ("zones", pyDictGet hit.payload "zones"),
   ("visa", pyDictGet hit.payload "visa"),
   ("rapprochements", pyDictGet hit.payload "rapprochements"),
   ("files", pyDictGet hit.payload "files")]

/-- Embedding of `MotivationBlocksSearcher.search_similar_decisions`
(app.py:53-89).  The remote boundaries are oracle parameters: `embed` models
`generate_embedding` (OpenAI), `search` models `client.search` (Qdrant); `V`
is the vector type.  Raised exceptions are modelled as `Except.error`. -/
def search_similar_decisions {V : Type} (embed : String → Except AppError V)
    (search : V → Nat → Except AppError (List Hit))
    (query : String) (limit : Nat) : Except AppError (List ResultRecord) :=
  match embed query with
  | Except.error e => Except.error e
  | Except.ok query_vector =>
    match search query_vector limit with
    | Except.error e => Except.error e
    | Except.ok search_result => Except.ok (search_result.map normalize_hit)

/-- Instrumented variant of `search_similar_decisions` that also returns how
often the embedding boundary and the search boundary were invoked. -/
def search_similar_decisions_instr {V : Type} (embed : String → Except AppError V)
    (search : V → Nat → Except AppError (List Hit))
    (query : String) (limit : Nat) :
    Except AppError (List ResultRecord) × Nat × Nat :=
  match embed query with
  | Except.error e => (Except.error e, 1, 0)
  | Except.ok query_vector =>
    match search query_vector limit with
    | Except.error e => (Except.error e, 1, 1)
    | Except.ok search_result => (Except.ok (search_result.map normalize_hit), 1, 1)

/-- The searcher component after construction; it caches the client handle,
modelled by the collection names visible through it. -/
structure MotivationBlocksSearcher where
  collections : List String
deriving DecidableEq

/-- Embedding of `_check_collection_exists` (app.py:34-40): raise when
`COLLECTION_NAME` is not among the index's collection names. -/
def checkCollectionExists (collectionNames : List String) : Except AppError Unit :=
  if COLLECTION_NAME ∈ collectionNames then Except.ok ()
  else Except.error (AppError.collectionNotFound
    ("Collection '" ++ COLLECTION_NAME ++ "' introuvable."))

/-- Embedding of `MotivationBlocksSearcher.__init__` (app.py:29-32): connect,
then check the collection exists; construction fails if it does not. -/
def searcherConstruct (collectionNames : List String) :
    Except AppError MotivationBlocksSearcher :=
  match checkCollectionExists collectionNames with
  | Except.error e => Except.error e
  | Except.ok _ => Except.ok ⟨collectionNames⟩

/-- Outcome shown by the Streamlit `main` after the search button logic. -/
inductive MainOutcome where
  | resultsShown (recs : List ResultRecord)
  | noResults
  | errorShown (msg : AppError)
  | emptyQueryWarning
  | idle
deriving Inhabited

/-- Embedding of the search-execution logic of `main` (app.py:153-219):
`if search_button and query:` runs the search with `limit=10` (truthiness of a
Python string is non-emptiness); `elif search_button and not query:` shows the
empty-query warning.  Returns the outcome together with the number of
invocations of the embedding and search boundaries. -/
def main_run {V : Type} (embed : String → Except AppError V)
    (search : V → Nat → Except AppError (List Hit))
    (searchButton : Bool) (query : String) : MainOutcome × Nat × Nat :=
  if searchButton && (query != "") then
    match search_similar_decisions_instr embed search query 10 with
    | (Except.error e, ne, ns) => (MainOutcome.errorShown e, ne, ns)
    | (Except.ok results, ne, ns) =>
      (if results.isEmpty then MainOutcome.noResults
       else MainOutcome.resultsShown results, ne, ns)
  else if searchButton && !(query != "") then (MainOutcome.emptyQueryWarning, 0, 0)
  else (MainOutcome.idle, 0, 0)

/-- Accumulator lemma for `String.intercalate.go`: a prefix of the accumulator
factors out of the fold. -/
theorem intercalate_go_append (s : String) (l : List String) (acc₁ acc₂ : String) :
    String.intercalate.go (acc₁ ++ acc₂) s l = acc₁ ++ String.intercalate.go acc₂ s l := by
  induction l generalizing acc₂ with
  | nil => rfl
  | cons a as ih =>
    simp only [String.intercalate.go]
    have h1 : acc₁ ++ acc₂ ++ s ++ a = acc₁ ++ (acc₂ ++ s ++ a) := by
      simp [String.append_assoc]
    rw [h1, ih]

/-- Unfolding `String.intercalate` on a list with at least two elements. -/
theorem intercalate_cons_cons (s x y : String) (t : List String) :
    String.intercalate s (x :: y :: t) = x ++ s ++ String.intercalate s (y :: t) := by
  show String.intercalate.go x s (y :: t) = x ++ s ++ String.intercalate.go y s t
  simp only [String.intercalate.go]
  exact intercalate_go_append s t (x ++ s) y

/-- `pyJoin` on a list of strings is `String.intercalate` and never raises. -/
theorem pyJoin_map_str (xs : List String) :
    pyJoin ", " (xs.map PyVal.str) = Except.ok (String.intercalate ", " xs) := by
  induction xs with
  | nil => rfl
  | cons x t ih =>
    cases t with
    | nil => rfl
    | cons y t' =>
      rw [List.map_cons] at ih
      simp only [List.map_cons, pyJoin, ih]
      rw [intercalate_cons_cons]

/-- Claim C3: theme-list formatting joins `["A","B"]` to `"A, B"`, returns the
sentinel on the empty list and on `None`, and returns a present non-sequence
value's string form as-is (`"single"`). -/
theorem c3_format_themes_cases :
    format_themes_inline (PyVal.list [PyVal.str "A", PyVal.str "B"]) = Except.ok "A, B" ∧
    format_themes_inline (PyVal.list []) = Except.ok "Non renseigné" ∧
    format_themes_inline PyVal.none = Except.ok "Non renseigné" ∧
    format_themes_inline (PyVal.str "single") = Except.ok "single" :=
  ⟨rfl, rfl, rfl, rfl⟩

/-- Claim C10: the theme-list formatter is total on non-empty lists of strings
(returning their comma-and-space join) but raises a `TypeError` on a non-empty
list containing a non-string element such as `[1]`. -/
theorem c10_format_themes_totality :
    (∀ xs : List String, xs ≠ [] →
      format_themes_inline (PyVal.list (xs.map PyVal.str)) =
        Except.ok (String.intercalate ", " xs)) ∧
    format_themes_inline (PyVal.list [PyVal.int 1]) = Except.error PyError.typeError := by
  refine ⟨?_, rfl⟩
  intro xs hne
  match xs with
  | x :: t =>
    simp only [format_themes_inline, pyTruthy, List.map_cons, List.isEmpty_cons,
      Bool.not_false, Bool.not_true, if_neg, List.length_cons, reduceCtorEq, if_false]
    exact pyJoin_map_str (x :: t)

/-- Witness for C10 at the concrete list `["A", "B"]`. -/
theorem c10_format_themes_totality_witness :
    format_themes_inline (PyVal.list (["A", "B"].map PyVal.str)) =
      Except.ok (String.intercalate ", " ["A", "B"]) :=
  c10_format_themes_totality.1 ["A", "B"] (by decide)

/-- Claim C5: the decision-URL builder returns `None` for an absent identifier,
the empty string and the sentinel, and otherwise substitutes the identifier
into the fixed template. -/
theorem c5_create_decision_url_spec :
    create_decision_url PyVal.none = Option.none ∧
    create_decision_url (PyVal.str "") = Option.none ∧
    create_decision_url (PyVal.str "Non renseigné") = Option.none ∧
    create_decision_url (PyVal.str "ABC123") =
      some "https://www.courdecassation.fr/decision/ABC123" ∧
    ∀ s : String, s ≠ "" → s ≠ "Non renseigné" →
      create_decision_url (PyVal.str s) =
        some ("https://www.courdecassation.fr/decision/" ++ s) := by
  refine ⟨rfl, rfl, by decide, rfl, ?_⟩
  intro s h1 h2
  simp [create_decision_url, pyTruthy, pyEqStr, pyStr, h1, h2]

/-- Witness for C5 at the concrete identifier `"XYZ"`. -/
theorem c5_create_decision_url_spec_witness :
    create_decision_url (PyVal.str "XYZ") =
      some ("https://www.courdecassation.fr/decision/" ++ "XYZ") :=
  c5_create_decision_url_spec.2.2.2.2 "XYZ" (by decide) (by decide)

/-- Claim C4: related-case extraction searches the three case-number patterns
in priority order — `pourvoi n° DD-DD.DDD`, then `n° DD-DD.DDD`, then bare
`DD-DD.DDD` — returning the capture of the first that matches (so pattern (a)
wins when several could match), and yields `None` when none matches. -/
theorem c4_extract_decision_id_spec :
    extract_decision_id_from_title "Cass. pourvoi n° 12-34.567" = some "12-34.567" ∧
    extract_decision_id_from_title "no numbers here" = Option.none ∧
    extract_decision_id_from_title "n° 11-11.111 et pourvoi n° 22-22.222" =
      some "22-22.222" ∧
    ∀ title : String,
      (∀ r, searchPat matchPourvoiAt title.data = some r →
        extract_decision_id_from_title title = some (String.mk r)) ∧
      (searchPat matchPourvoiAt title.data = Option.none →
        ∀ r, searchPat matchNumAt title.data = some r →
          extract_decision_id_from_title title = some (String.mk r)) ∧
      (searchPat matchPourvoiAt title.data = Option.none →
        searchPat matchNumAt title.data = Option.none →
          extract_decision_id_from_title title =
            (searchPat matchBareAt title.data).map String.mk) := by
  refine ⟨by decide, by decide, by decide, ?_⟩
  intro title
  refine ⟨?_, ?_, ?_⟩
  · intro r h
    simp [extract_decision_id_from_title, titlePatterns, firstMatch, h]
  · intro h0 r h
    simp [extract_decision_id_from_title, titlePatterns, firstMatch, h0, h]
  · intro h0 h1
    simp only [extract_decision_id_from_title, titlePatterns, firstMatch, h0, h1]
    cases searchPat matchBareAt title.data <;> rfl

/-- Witness for C4: the priority clauses applied at concrete titles. -/
theorem c4_extract_decision_id_spec_witness :
    extract_decision_id_from_title "pourvoi n° 99-88.777" =
      some (String.mk "99-88.777".data) ∧
    extract_decision_id_from_title "dossier n° 77-66.555" =
      some (String.mk "77-66.555".data) :=
  ⟨(c4_extract_decision_id_spec.2.2.2 "pourvoi n° 99-88.777").1 "99-88.777".data
      (by decide),
    (c4_extract_decision_id_spec.2.2.2 "dossier n° 77-66.555").2.1 (by decide)
      "77-66.555".data (by decide)⟩

/-- One-step unfolding of association-list lookup. -/
@[simp] theorem pyDictFind_cons (k₁ : String) (v : PyVal) (d : List (String × PyVal))
    (k : String) :
    pyDictFind ((k₁, v) :: d) k = if k₁ == k then some v else pyDictFind d k := by
  cases hb : (k₁ == k) <;> simp [pyDictFind, List.find?_cons, hb]

/-- Lookup in the empty association list. -/
@[simp] theorem pyDictFind_nil (k : String) : pyDictFind [] k = Option.none := rfl

/-- Unfolding `pyDictGet` to the underlying lookup. -/
@[simp] theorem pyDictGet_eq_find (d : List (String × PyVal)) (k : String) :
    pyDictGet d k = (pyDictFind d k).getD PyVal.none := rfl

/-- Unfolding `pyDictGetD` to the underlying lookup. -/
@[simp] theorem pyDictGetD_eq_find (d : List (String × PyVal)) (k : String) (dflt : PyVal) :
    pyDictGetD d k dflt = (pyDictFind d k).getD dflt := rfl

/-- Claim C9: a payload field that is absent maps, in the normalized record,
to the value `None` under a key that is nonetheless present — distinct from
the display sentinel `"Non renseigné"` — so a keyed default lookup on the
record never falls back to its default for these keys. -/
theorem c9_missing_fields_map_to_none :
    ∀ (hit : Hit) (rk pk : String) (d : PyVal), (rk, pk) ∈ fixedFields →
      (pyDictFind (normalize_hit hit) rk).isSome = true ∧
      pyDictGetD (normalize_hit hit) rk d = pyDictGet (normalize_hit hit) rk ∧
      (pyDictFind hit.payload pk = Option.none →
        pyDictGet (normalize_hit hit) rk = PyVal.none) ∧
      PyVal.none ≠ PyVal.str "Non renseigné" := by
  intro hit rk pk d hmem
  fin_cases hmem <;>
    exact ⟨by simp [normalize_hit], by simp [normalize_hit],
      fun h => by simp [normalize_hit, h],
      fun hc => PyVal.noConfusion hc⟩

/-- Witness for C9: a hit with an empty payload yields `None` (not the
sentinel) at key `solution`, and the defaulted lookup ignores its default. -/
theorem c9_missing_fields_map_to_none_witness :
    pyDictGetD (normalize_hit ⟨PyVal.int 0, []⟩) "solution" (PyVal.str "X") =
      pyDictGet (normalize_hit ⟨PyVal.int 0, []⟩) "solution" ∧
    pyDictGet (normalize_hit ⟨PyVal.int 0, []⟩) "solution" = PyVal.none :=
  ⟨(c9_missing_fields_map_to_none ⟨PyVal.int 0, []⟩ "solution" "solution"
      (PyVal.str "X") (by decide)).2.1,
    (c9_missing_fields_map_to_none ⟨PyVal.int 0, []⟩ "solution" "solution"
      (PyVal.str "X") (by decide)).2.2.1 rfl⟩

/-- Counterexample to claim C2 as stated: for a hit whose payload lacks the
`chamber` field, the normalized record stores `None` at key `chamber`, which
is not the "not provided" sentinel string `"Non renseigné"`. -/
theorem c2_sentinel_counterexample :
    pyDictGet (normalize_hit ⟨PyVal.int 0, []⟩) "chamber" = PyVal.none ∧
    PyVal.none ≠ PyVal.str "Non renseigné" :=
  ⟨rfl, fun hc => PyVal.noConfusion hc⟩

/-- Claim C2 (amended): every fixed field key is present in every normalized
record, and a field absent from the source payload is stored as `None` (the
null value) rather than the sentinel string, so no key is ever missing. -/
theorem c2_all_keys_present_amended :
    ∀ (hit : Hit) (rk : String), rk ∈ resultRecordKeys →
      (pyDictFind (normalize_hit hit) rk).isSome = true ∧
      (∀ pk, (rk, pk) ∈ fixedFields → pyDictFind hit.payload pk = Option.none →
        pyDictGet (normalize_hit hit) rk = PyVal.none) := by
  intro hit rk hmem
  fin_cases hmem <;> refine ⟨by simp [normalize_hit], ?_⟩
  all_goals intro pk hpk h
  all_goals simp [fixedFields] at hpk
  all_goals subst hpk
  all_goals simp [normalize_hit, h]

/-- Witness for C2 (amended) at key `themes` of a hit with empty payload. -/
theorem c2_all_keys_present_amended_witness :
    (pyDictFind (normalize_hit ⟨PyVal.int 0, []⟩) "themes").isSome = true ∧
    pyDictGet (normalize_hit ⟨PyVal.int 0, []⟩) "themes" = PyVal.none :=
  ⟨(c2_all_keys_present_amended ⟨PyVal.int 0, []⟩ "themes" (by decide)).1,
    (c2_all_keys_present_amended ⟨PyVal.int 0, []⟩ "themes" (by decide)).2
      "themes" (by decide) rfl⟩

/-- Claim C6: for a non-empty query and positive limit, retrieval either fails
with a typed error or returns at most `limit` records (given the search
boundary's contract that it returns at most `k` hits). -/
theorem c6_retrieve_length_bound :
    ∀ {V : Type} (embed : String → Except AppError V)
      (search : V → Nat → Except AppError (List Hit)) (query : String) (limit : Nat),
      query ≠ "" → 0 < limit →
      (∀ (v : V) (k : Nat) (hits : List Hit),
        search v k = Except.ok hits → hits.length ≤ k) →
      (∃ e, search_similar_decisions embed search query limit = Except.error e) ∨
      (∃ recs, search_similar_decisions embed search query limit = Except.ok recs ∧
        recs.length ≤ limit) := by
  intro V embed search query limit _ _ hcontract
  cases hemb : embed query with
  | error e => exact Or.inl ⟨e, by simp [search_similar_decisions, hemb]⟩
  | ok v =>
    cases hs : search v limit with
    | error e => exact Or.inl ⟨e, by simp [search_similar_decisions, hemb, hs]⟩
    | ok hits =>
      refine Or.inr ⟨hits.map normalize_hit,
        by simp [search_similar_decisions, hemb, hs], ?_⟩
      simpa using hcontract v limit hits hs

/-- Witness for C6 with trivially successful oracles. -/
theorem c6_retrieve_length_bound_witness :
    (∃ e, search_similar_decisions (fun _ => Except.ok ())
        (fun (_ : Unit) _ => Except.ok ([] : List Hit)) "question" 1 = Except.error e) ∨
    (∃ recs, search_similar_decisions (fun _ => Except.ok ())
        (fun (_ : Unit) _ => Except.ok ([] : List Hit)) "question" 1 = Except.ok recs ∧
        recs.length ≤ 1) :=
  c6_retrieve_length_bound (fun _ => Except.ok ()) (fun _ _ => Except.ok [])
    "question" 1 (by decide) (by decide)
    (fun _ _ hits h => by injection h with h2; subst h2; simp)

/-- Claim C7: the collection-existence check happens at component
construction: construction fails with `CollectionNotFoundError` exactly when
`COLLECTION_NAME` is absent from the index's collections, and succeeds
otherwise. -/
theorem c7_collection_check_at_construction :
    ∀ names : List String,
      (COLLECTION_NAME ∉ names → searcherConstruct names = Except.error
        (AppError.collectionNotFound "Collection 'blocs_motivation' introuvable.")) ∧
      (COLLECTION_NAME ∈ names → searcherConstruct names = Except.ok ⟨names⟩) := by
  intro names
  constructor
  · intro h
    simp only [searcherConstruct, checkCollectionExists, if_neg h]
    rfl
  · intro h
    simp only [searcherConstruct, checkCollectionExists, if_pos h]

/-- Witness for C7: construction fails on an index without the collection and
succeeds on one holding `blocs_motivation`. -/
theorem c7_collection_check_at_construction_witness :
    searcherConstruct ["other"] = Except.error
      (AppError.collectionNotFound "Collection 'blocs_motivation' introuvable.") ∧
    searcherConstruct ["blocs_motivation"] = Except.ok ⟨["blocs_motivation"]⟩ :=
  ⟨(c7_collection_check_at_construction ["other"]).1 (by decide),
    (c7_collection_check_at_construction ["blocs_motivation"]).2 (by decide)⟩

/-- Claim C8: when embedding and search succeed, retrieval returns exactly one
normalized record per hit, in the hits' order (element `i` of the output is
the normalization of hit `i`, and the score sequence is preserved). -/
theorem c8_one_record_per_hit_order_preserved :
    ∀ {V : Type} (embed : String → Except AppError V)
      (search : V → Nat → Except AppError (List Hit))
      (query : String) (limit : Nat) (v : V) (hits : List Hit),
      embed query = Except.ok v → search v limit = Except.ok hits →
      search_similar_decisions embed search query limit =
        Except.ok (hits.map normalize_hit) ∧
      (hits.map normalize_hit).length = hits.length ∧
      (∀ i : Nat, (hits.map normalize_hit)[i]? = (hits[i]?).map normalize_hit) ∧
      (hits.map normalize_hit).map (fun r => pyDictGet r "score") =
        hits.map Hit.score := by
  intro V embed search query limit v hits he hs
  refine ⟨?_, by simp, ?_, ?_⟩
  · simp [search_similar_decisions, he, hs]
  · intro i
    simp [List.getElem?_map]
  · simp only [List.map_map]
    apply List.map_congr_left
    intro a _
    simp [normalize_hit]

/-- Witness for C8 with a one-hit search oracle. -/
theorem c8_one_record_per_hit_witness :
    search_similar_decisions (fun _ => Except.ok ())
        (fun (_ : Unit) _ => Except.ok [Hit.mk (PyVal.int 5) []]) "q" 3 =
      Except.ok ([Hit.mk (PyVal.int 5) []].map normalize_hit) ∧
    ([Hit.mk (PyVal.int 5) []].map normalize_hit)[0]? =
      (([Hit.mk (PyVal.int 5) []] : List Hit)[0]?).map normalize_hit :=
  ⟨(c8_one_record_per_hit_order_preserved (fun _ => Except.ok ())
      (fun _ _ => Except.ok [Hit.mk (PyVal.int 5) []]) "q" 3 ()
      [Hit.mk (PyVal.int 5) []] rfl rfl).1,
    (c8_one_record_per_hit_order_preserved (fun _ => Except.ok ())
      (fun _ _ => Except.ok [Hit.mk (PyVal.int 5) []]) "q" 3 ()
      [Hit.mk (PyVal.int 5) []] rfl rfl).2.2.1 0⟩

/-- Counterexample to claim C1 as stated: on the whitespace-only query `"   "`
the search flow of `main` does invoke the embedding boundary (and the search
boundary) — one call each with these oracles — instead of rejecting the query
without remote calls. -/
theorem c1_whitespace_query_counterexample :
    (main_run (fun _ => Except.ok ()) (fun (_ : Unit) _ => Except.ok ([] : List Hit))
        true "   ").2.1 = 1 ∧
    (main_run (fun _ => Except.ok ()) (fun (_ : Unit) _ => Except.ok ([] : List Hit))
        true "   ").2.2 = 1 :=
  ⟨rfl, rfl⟩

/-- Claim C1 (amended): only the empty query is short-circuited — when the
button is pressed with the empty query, `main` shows the empty-query warning
and invokes neither boundary; a whitespace-only query is not rejected and
always invokes the embedding boundary. -/
theorem c1_empty_query_shortcircuit_amended :
    ∀ {V : Type} (embed : String → Except AppError V)
      (search : V → Nat → Except AppError (List Hit)),
      main_run embed search true "" = (MainOutcome.emptyQueryWarning, 0, 0) ∧
      (∀ button : Bool, (main_run embed search button "").2.1 = 0 ∧
        (main_run embed search button "").2.2 = 0) ∧
      (main_run embed search true "   ").2.1 = 1 := by
  intro V embed search
  refine ⟨rfl, ?_, ?_⟩
  · intro button
    cases button <;> exact ⟨rfl, rfl⟩
  · show (main_run embed search true "   ").2.1 = 1
    unfold main_run search_similar_decisions_instr
    cases hemb : embed "   " with
    | error e => simp [hemb]
    | ok v => cases hs : search v 10 <;> simp [hemb, hs]

end SearchMotivations
